import Mathlib

/-!
Verification development for the Flask task-tracking backend
(src/Flask-Backend/app.py, final user+task version).

The store (the relational database) is modelled as lists of `User` and
`Task` rows together with the server-assigned id sequences and a salt
supply for the bcrypt credential service.  Each HTTP handler is embedded
as a function from the store and the parsed JSON request body to the new
store and the HTTP response.  JSON response bodies are modelled by the
`Body` inductive, one constructor per shape the handlers produce.
-/

namespace App

/-- Models a bcrypt hash string.  `bcrypt.generate_password_hash` draws a
fresh salt on each call and embeds it in the output, so the hash is a
function of the salt and the password; the model renders it as the
dollar-separated concatenation of a tag, the salt and the password digest
(the ideal one-way digest is injective for a fixed salt, so the digest is
represented by its preimage). -/
def bcryptHash (salt : Nat) (password : String) : String :=
  "bcrypt:" ++ toString salt ++ ":" ++ password

/-- Read a decimal digit sequence. -/
def digitsToNat (cs : List Char) : Nat :=
  cs.foldl (fun acc c => acc * 10 + (c.toNat - 48)) 0

/-- The salt embedded in a modelled bcrypt hash string: the digit run
after the 7-character tag. -/
def extractSalt (h : String) : Nat :=
  digitsToNat ((h.data.drop 7).takeWhile Char.isDigit)

/-- Models `bcrypt.check_password_hash h p`: re-hash `p` under the salt
embedded in `h` and compare with `h`. -/
def checkPasswordHash (h password : String) : Bool :=
  h == bcryptHash (extractSalt h) password

/-- A row of the `users` table.  Columns as declared on the `User` model:
`id` (integer primary key, server-assigned), `username` (unique, non-null),
`email` (unique, non-null), `password_hash` (non-null). -/
structure User where
  id : Nat
  username : String
  email : String
  password_hash : String
deriving DecidableEq, Repr

/-- `User.__init__`: stores the username and email and the bcrypt hash of
the password (never the raw password). -/
def User.make (salt : Nat) (username email password : String) (id : Nat) : User :=
  ⟨id, username, email, bcryptHash salt password⟩

/-- `User.check_password`. -/
def User.check_password (u : User) (password : String) : Bool :=
  checkPasswordHash u.password_hash password

/-- A row of the task table.  Columns as declared on the `Task` model:
`id` (integer primary key, server-assigned), `title` (non-null),
`description`, `done` (default false), `user_id` (foreign key to
`users.id`, non-null). -/
structure Task where
  id : Nat
  title : String
  description : String
  done : Bool
  user_id : Nat
deriving DecidableEq, Repr

/-- The flat map produced by `Task.to_dict`. -/
structure TaskDict where
  id : Nat
  title : String
  description : String
  done : Bool
  user_id : Nat
deriving DecidableEq, Repr

/-- `Task.to_dict`: serialize the five stored columns. -/
def Task.to_dict (t : Task) : TaskDict :=
  ⟨t.id, t.title, t.description, t.done, t.user_id⟩

/-- The JSON bodies the handlers produce: a message object, an error
object, a single serialized task, a list of serialized tasks, or the
framework-generated internal-error page returned when an exception (such
as a storage-engine constraint violation at commit time) escapes a
handler. -/
inductive Body where
  | msg : String → Body
  | err : String → Body
  | task : TaskDict → Body
  | tasks : List TaskDict → Body
  | internal : Body
deriving DecidableEq, Repr

/-- An HTTP response: status code and JSON body. -/
structure Response where
  status : Nat
  body : Body
deriving DecidableEq, Repr

/-- The database state: the two tables, the server-assigned id sequences
(PostgreSQL serial columns, starting at 1), and the salt supply feeding
the per-call random salts of the credential service. -/
structure Store where
  users : List User
  tasks : List Task
  nextUserId : Nat
  nextTaskId : Nat
  nextSalt : Nat
deriving DecidableEq, Repr

/-- Parsed JSON body of a register request; `none` means the key is
absent. -/
structure RegisterBody where
  username : Option String
  email : Option String
  password : Option String
deriving DecidableEq, Repr

/-- Parsed JSON body of a login request; `none` means the key is
absent. -/
structure LoginBody where
  username : Option String
  password : Option String
deriving DecidableEq, Repr

/-- Parsed JSON body of a task create or update request; `none` means the
key is absent.  The `id` and `user_id` keys may be supplied by a client
even though the update handler never reads them. -/
structure TaskBody where
  id : Option Int
  title : Option String
  description : Option String
  done : Option Bool
  user_id : Option Int
deriving DecidableEq, Repr

/-- `User.query.filter_by(username=un).first()`. -/
def findUserByName (s : Store) (un : String) : Option User :=
  s.users.find? (fun u => u.username == un)

/-- `User.query.get(uid)` where `uid` comes from the JSON body (any
integer). -/
def findUserById (s : Store) (uid : Int) : Option User :=
  s.users.find? (fun u => (u.id : Int) == uid)

/-- `Task.query.get(id)` for a path parameter. -/
def findTaskById (s : Store) (id : Nat) : Option Task :=
  s.tasks.find? (fun t => t.id == id)

/-- Whether inserting a user with this username or email violates one of
the unique constraints declared on the `username` and `email` columns. -/
def userConstraintViolated (s : Store) (un em : String) : Bool :=
  s.users.any (fun u => u.username == un || u.email == em)

/-- The `register_user` handler (`POST /register`).  Checks that the three
fields are present, probes for an existing user with the same username,
then creates the user and commits.  `db.session.commit()` is where the
storage engine enforces the unique constraints declared on the `username`
and `email` columns: a violated constraint aborts the insert and the
resulting IntegrityError escapes the handler as an HTTP 500 internal
error, leaving the table unchanged. -/
def register_user (s : Store) (data : RegisterBody) : Store × Response :=
  match data.username, data.email, data.password with
  | some un, some em, some pw =>
    match findUserByName s un with
    | some _ => (s, ⟨400, .err "Username already exists"⟩)
    | none =>
      if userConstraintViolated s un em then
        (s, ⟨500, .internal⟩)
      else
        ({ s with
            users := s.users ++ [User.make s.nextSalt un em pw s.nextUserId],
            nextUserId := s.nextUserId + 1,
            nextSalt := s.nextSalt + 1 },
         ⟨200, .msg "User created successfully"⟩)
  | _, _, _ => (s, ⟨400, .err "Username, email, and password are required"⟩)

/-- The `login_user` handler (`POST /login`). -/
def login_user (s : Store) (data : LoginBody) : Store × Response :=
  match data.username, data.password with
  | some un, some pw =>
    match findUserByName s un with
    | none => (s, ⟨400, .err "Invalid username or password"⟩)
    | some user =>
      if user.check_password pw then
        (s, ⟨200, .msg ("Welcome " ++ user.username ++ "! You are logged in.")⟩)
      else
        (s, ⟨400, .err "Invalid username or password"⟩)
  | _, _ => (s, ⟨400, .err "Username and password are required"⟩)

/-- The `home` handler (`GET /`). -/
def home (s : Store) : Store × Response :=
  (s, ⟨200, .msg "Welcome to the Task API"⟩)

/-- The `get_tasks` handler (`GET /tasks`): dump every task. -/
def get_tasks (s : Store) : Store × Response :=
  (s, ⟨200, .tasks (s.tasks.map Task.to_dict)⟩)

/-- Python truthiness of `data.get('user_id')`: `None` and `0` are falsy,
every other integer is truthy. -/
def truthyUserId : Option Int → Bool
  | none => false
  | some v => v != 0

/-- The `add_task` handler (`POST /tasks`).  Requires `title` and
`description` keys, then a truthy `user_id` (so a supplied `user_id` of 0
is rejected as missing), then resolves the user; on success inserts a
task whose `done` defaults to false and whose `user_id` is the resolved
user id, and returns its serialization. -/
def add_task (s : Store) (data : TaskBody) : Store × Response :=
  if data.title.isNone || data.description.isNone then
    (s, ⟨400, .err "Title and description are required"⟩)
  else
    if !(truthyUserId data.user_id) then
      (s, ⟨400, .err "User ID is required"⟩)
    else
      match findUserById s (data.user_id.getD 0) with
      | none => (s, ⟨404, .err "User not found"⟩)
      | some user =>
        let new_task : Task :=
          ⟨s.nextTaskId, data.title.getD "", data.description.getD "",
            data.done.getD false, user.id⟩
        ({ s with
            tasks := s.tasks ++ [new_task],
            nextTaskId := s.nextTaskId + 1 },
         ⟨200, .task new_task.to_dict⟩)

/-- The `get_task` handler (`GET /tasks/<int:id>`). -/
def get_task (s : Store) (id : Nat) : Store × Response :=
  match findTaskById s id with
  | none => (s, ⟨400, .err "Task not found"⟩)
  | some task => (s, ⟨200, .task task.to_dict⟩)

/-- The partial merge performed by `update_task`: each of `title`,
`description`, `done` is taken from the body when supplied and kept
otherwise (`data.get(field, current)`); `id` and `user_id` are never
touched. -/
def mergeTask (task : Task) (data : TaskBody) : Task :=
  { task with
      title := data.title.getD task.title,
      description := data.description.getD task.description,
      done := data.done.getD task.done }

/-- The `update_task` handler (`PUT /tasks/<int:id>`).  Looks up the task,
merges the supplied fields in place and commits (an UPDATE of the row
with this primary key), returning the updated serialization. -/
def update_task (s : Store) (id : Nat) (data : TaskBody) : Store × Response :=
  match findTaskById s id with
  | none => (s, ⟨400, .err "Task not found"⟩)
  | some task =>
    let task' := mergeTask task data
    ({ s with
        tasks := s.tasks.map (fun t => if t.id == id then task' else t) },
     ⟨200, .task task'.to_dict⟩)

/-- The `delete_task` handler (`DELETE /tasks/<int:id>`).  Looks up the
task and deletes the row with this primary key. -/
def delete_task (s : Store) (id : Nat) : Store × Response :=
  match findTaskById s id with
  | none => (s, ⟨400, .err "Task not found"⟩)
  | some _ =>
    ({ s with tasks := s.tasks.filter (fun t => !(t.id == id)) },
     ⟨200, .msg "Task deleted"⟩)

/-- One request to the API, for stating store-level invariants. -/
inductive Op where
  | register : RegisterBody → Op
  | login : LoginBody → Op
  | homePage : Op
  | listTasks : Op
  | createTask : TaskBody → Op
  | getTask : Nat → Op
  | updateTask : Nat → TaskBody → Op
  | deleteTask : Nat → Op
deriving DecidableEq, Repr

/-- Dispatch one request to its handler. -/
def applyOp (s : Store) : Op → Store × Response
  | .register data => register_user s data
  | .login data => login_user s data
  | .homePage => home s
  | .listTasks => get_tasks s
  | .createTask data => add_task s data
  | .getTask id => get_task s id
  | .updateTask id data => update_task s id data
  | .deleteTask id => delete_task s id

/-- Run a sequence of requests, keeping only the final store. -/
def runOps (s : Store) (ops : List Op) : Store :=
  ops.foldl (fun st op => (applyOp st op).1) s

/-- All usernames are pairwise distinct and all emails are pairwise
distinct across the users table. -/
def UsersUnique (s : Store) : Prop :=
  (s.users.map User.username).Nodup ∧ (s.users.map User.email).Nodup

instance (s : Store) : Decidable (UsersUnique s) := by
  unfold UsersUnique; infer_instance

/-- A sample user whose password is p1, hashed with salt 0. -/
def sampleUser : User := ⟨1, "alice", "a@x.com", bcryptHash 0 "p1"⟩

/-- A sample store holding `sampleUser` and no tasks. -/
def sampleStore : Store := ⟨[sampleUser], [], 2, 1, 1⟩

/-- A sample task owned by `sampleUser`. -/
def sampleTask : Task := ⟨1, "T", "D", false, 1⟩

/-- A sample store holding `sampleUser` and `sampleTask`. -/
def taskStore : Store := ⟨[sampleUser], [sampleTask], 2, 2, 1⟩

/-- The store of a fresh deployment: empty tables, id sequences at 1. -/
def emptyStore : Store := ⟨[], [], 1, 1, 0⟩

/-- A create-task body whose user_id key is present with value 0. -/
def zeroIdBody : TaskBody := ⟨none, some "T", some "D", none, some 0⟩

/- ------------------------------------------------------------------ -/
/- Helper lemmas                                                       -/
/- ------------------------------------------------------------------ -/

theorem bcryptHash_ne_password (salt : Nat) (password : String) :
    bcryptHash salt password ≠ password := by
  intro h
  have hlen := congrArg String.length h
  unfold bcryptHash at hlen
  rw [String.length_append, String.length_append, String.length_append] at hlen
  have h7 : ("bcrypt:" : String).length = 7 := rfl
  have h1 : (":" : String).length = 1 := rfl
  omega

theorem find?_replace (l : List Task) (id : Nat) (b : Task) (hb : b.id = id)
    (h : (l.find? (fun t => t.id == id)).isSome) :
    (l.map (fun t => if t.id == id then b else t)).find? (fun t => t.id == id)
      = some b := by
  induction l with
  | nil => simp at h
  | cons x xs ih =>
    by_cases hx : x.id = id
    · rw [List.map_cons, if_pos (by simp [hx])]
      exact List.find?_cons_of_pos _ (by simp [hb])
    · rw [List.map_cons, if_neg (by simp [hx]),
        List.find?_cons_of_neg _ (by simp [hx])]
      rw [List.find?_cons_of_neg _ (by simp [hx])] at h
      exact ih h

theorem find?_filter_ne (l : List Task) (id : Nat) :
    (l.filter (fun t => !(t.id == id))).find? (fun t => t.id == id) = none := by
  rw [List.find?_eq_none]
  intro x hx
  have hmem := (List.mem_filter.mp hx).2
  simp only [Bool.not_eq_true', beq_eq_false_iff_ne, ne_eq] at hmem
  simp [hmem]

theorem nodup_map_concat (l : List User) (f : User → String) (a : User)
    (h : (l.map f).Nodup) (hfresh : ∀ u ∈ l, f u ≠ f a) :
    ((l ++ [a]).map f).Nodup := by
  rw [List.map_append, List.nodup_append]
  refine ⟨h, List.nodup_singleton _, ?_⟩
  intro x hx hmem
  obtain ⟨u, hu, rfl⟩ := List.mem_map.mp hx
  simp only [List.map_cons, List.map_nil, List.mem_singleton] at hmem
  exact hfresh u hu hmem

theorem register_preserves_usersUnique (s : Store) (data : RegisterBody)
    (h : UsersUnique s) : UsersUnique (register_user s data).1 := by
  obtain ⟨ou, oe, op⟩ := data
  cases ou <;> cases oe <;> cases op <;>
    simp only [register_user] <;> try exact h
  rename_i un em pw
  cases hfind : findUserByName s un with
  | some u => exact h
  | none =>
    by_cases hviol : userConstraintViolated s un em = true
    · simp [hviol]; exact h
    · simp only [hviol, Bool.false_eq_true, if_false]
      have hfresh : ∀ u ∈ s.users, u.username ≠ un ∧ u.email ≠ em := by
        intro u hu
        unfold userConstraintViolated at hviol
        rw [Bool.not_eq_true] at hviol
        rw [List.any_eq_false] at hviol
        have := hviol u hu
        simp only [Bool.or_eq_true, beq_iff_eq, not_or] at this
        exact this
      constructor
      · exact nodup_map_concat s.users User.username _ h.1
          (fun u hu => (hfresh u hu).1)
      · exact nodup_map_concat s.users User.email _ h.2
          (fun u hu => (hfresh u hu).2)

theorem login_fst (s : Store) (data : LoginBody) : (login_user s data).1 = s := by
  unfold login_user
  repeat' split
  all_goals rfl

theorem add_task_users (s : Store) (data : TaskBody) :
    (add_task s data).1.users = s.users := by
  unfold add_task
  repeat' split
  all_goals rfl

theorem get_task_fst (s : Store) (id : Nat) : (get_task s id).1 = s := by
  unfold get_task
  repeat' split
  all_goals rfl

theorem update_task_users (s : Store) (id : Nat) (data : TaskBody) :
    (update_task s id data).1.users = s.users := by
  unfold update_task
  repeat' split
  all_goals rfl

theorem delete_task_users (s : Store) (id : Nat) :
    (delete_task s id).1.users = s.users := by
  unfold delete_task
  repeat' split
  all_goals rfl

theorem usersUnique_of_users_eq {s s' : Store} (h : s'.users = s.users)
    (hu : UsersUnique s) : UsersUnique s' := by
  unfold UsersUnique at hu ⊢
  rw [h]
  exact hu

theorem applyOp_usersUnique (s : Store) (op : Op) (h : UsersUnique s) :
    UsersUnique (applyOp s op).1 := by
  cases op with
  | register data => exact register_preserves_usersUnique s data h
  | login data =>
    exact usersUnique_of_users_eq (congrArg Store.users (login_fst s data)) h
  | homePage => exact h
  | listTasks => exact h
  | createTask data => exact usersUnique_of_users_eq (add_task_users s data) h
  | getTask id =>
    exact usersUnique_of_users_eq (congrArg Store.users (get_task_fst s id)) h
  | updateTask id data =>
    exact usersUnique_of_users_eq (update_task_users s id data) h
  | deleteTask id => exact usersUnique_of_users_eq (delete_task_users s id) h

/- ------------------------------------------------------------------ -/
/- Claims                                                              -/
/- ------------------------------------------------------------------ -/

/-- C1, counterexample: with a fresh username but an email that an
existing user already has, the handler level username probe passes, the
insert violates the unique constraint on the email column, and the run
ends in a 500 internal error with no user created — not in the claimed
200 success.  The store `sampleStore` has no user named bob, yet the
register request for bob with the already-used email a-at-x.com does not
return 200 with the success message, and the store is unchanged. -/
theorem register_duplicate_email_counterexample :
    (∀ u ∈ sampleStore.users, u.username ≠ "bob") ∧
    (register_user sampleStore ⟨some "bob", some "a@x.com", some "pw"⟩).1
      = sampleStore ∧
    (register_user sampleStore ⟨some "bob", some "a@x.com", some "pw"⟩).2
      ≠ ⟨200, Body.msg "User created successfully"⟩ ∧
    (register_user sampleStore ⟨some "bob", some "a@x.com", some "pw"⟩).2.status
      = 500 := by decide

/-- C1, amended: for every store state and register request carrying
username, email and password, where no existing user has the supplied
username AND no existing user has the supplied email, the handler
appends exactly one new user whose stored password_hash is the salted
bcrypt hash of the supplied password (and in particular differs from the
raw password), and returns status 200 with the success message. -/
theorem register_fresh_user_ok (s : Store) (data : RegisterBody)
    (un em pw : String) (hu : data.username = some un)
    (he : data.email = some em) (hp : data.password = some pw)
    (hname : ∀ u ∈ s.users, u.username ≠ un)
    (hmail : ∀ u ∈ s.users, u.email ≠ em) :
    register_user s data =
      ({ s with
          users := s.users ++ [⟨s.nextUserId, un, em, bcryptHash s.nextSalt pw⟩],
          nextUserId := s.nextUserId + 1,
          nextSalt := s.nextSalt + 1 },
        ⟨200, Body.msg "User created successfully"⟩) ∧
    bcryptHash s.nextSalt pw ≠ pw := by
  have hfind : findUserByName s un = none :=
    List.find?_eq_none.mpr (fun u hu2 => by simp [hname u hu2])
  have hviol : userConstraintViolated s un em = false := by
    unfold userConstraintViolated
    rw [List.any_eq_false]
    intro u hu2
    simp [hname u hu2, hmail u hu2]
  constructor
  · simp only [register_user, hu, he, hp, hfind, hviol, Bool.false_eq_true,
      if_false]
    rfl
  · exact bcryptHash_ne_password s.nextSalt pw

/-- C1, witness for the amended claim: registering the first user of a
fresh deployment stores the salted hash, not the raw password, and
succeeds. -/
theorem register_fresh_user_ok_witness :
    register_user emptyStore ⟨some "al", some "a@x.com", some "p1"⟩ =
      (⟨[⟨1, "al", "a@x.com", bcryptHash 0 "p1"⟩], [], 2, 1, 1⟩,
        ⟨200, Body.msg "User created successfully"⟩) ∧
    bcryptHash 0 "p1" ≠ "p1" := by
  have h := register_fresh_user_ok emptyStore
    ⟨some "al", some "a@x.com", some "p1"⟩ "al" "a@x.com" "p1" rfl rfl rfl
    (by decide) (by decide)
  exact ⟨h.1.trans (by decide), h.2⟩

/-- C2: for every store state and register request carrying username,
email and password, if some existing user already has the supplied
username the handler returns 400 with the duplicate-username error and
the store is returned unchanged — no row created or modified. -/
theorem register_taken_username_rejected (s : Store) (data : RegisterBody)
    (un em pw : String) (hu : data.username = some un)
    (he : data.email = some em) (hp : data.password = some pw) (u : User)
    (hex : findUserByName s un = some u) :
    register_user s data = (s, ⟨400, Body.err "Username already exists"⟩) := by
  simp [register_user, hu, he, hp, hex]

/-- C2, witness: registering alice a second time is rejected and the
store is unchanged. -/
theorem register_taken_username_rejected_witness :
    register_user sampleStore ⟨some "alice", some "c@x.com", some "pw"⟩ =
      (sampleStore, ⟨400, Body.err "Username already exists"⟩) :=
  register_taken_username_rejected sampleStore _ "alice" "c@x.com" "pw"
    rfl rfl rfl sampleUser (by decide)

/-- C3: username uniqueness and email uniqueness are each an invariant
of the store: starting from a state whose usernames are pairwise
distinct and whose emails are pairwise distinct, any sequence of API
requests — register, login, and all task operations — ends in a state
with the same two properties. -/
theorem users_unique_invariant (s : Store) (ops : List Op)
    (h : UsersUnique s) : UsersUnique (runOps s ops) := by
  induction ops generalizing s with
  | nil => exact h
  | cons op rest ih => exact ih _ (applyOp_usersUnique s op h)

/-- C3, witness: a request sequence that retries a taken username and a
taken email still leaves the user table duplicate-free. -/
theorem users_unique_invariant_witness :
    UsersUnique (runOps emptyStore
      [Op.register ⟨some "al", some "a@x.com", some "p1"⟩,
       Op.register ⟨some "al", some "b@x.com", some "p2"⟩,
       Op.register ⟨some "bob", some "a@x.com", some "p3"⟩,
       Op.register ⟨some "bob", some "b@x.com", some "p4"⟩,
       Op.createTask ⟨none, some "T", some "D", none, some 1⟩]) :=
  users_unique_invariant emptyStore _ (by decide)

/-- C4: for every store state and login request carrying username and
password, a resolvable username whose password verifies yields 200 with
the welcome message, while the two failure runs — unknown username, and
known username with non-verifying password — produce literally the same
response, status 400 with the same error body, so the response does not
distinguish an unknown user from a wrong password. -/
theorem login_uniform_responses (s : Store) (data : LoginBody)
    (un pw : String) (hu : data.username = some un)
    (hp : data.password = some pw) :
    (∀ u, findUserByName s un = some u → u.check_password pw = true →
      login_user s data =
        (s, ⟨200, Body.msg ("Welcome " ++ u.username ++ "! You are logged in.")⟩)) ∧
    (findUserByName s un = none →
      login_user s data = (s, ⟨400, Body.err "Invalid username or password"⟩)) ∧
    (∀ u, findUserByName s un = some u → u.check_password pw = false →
      login_user s data = (s, ⟨400, Body.err "Invalid username or password"⟩)) := by
  refine ⟨?_, ?_, ?_⟩
  · intro u hfind hck
    simp [login_user, hu, hp, hfind, hck]
  · intro hfind
    simp [login_user, hu, hp, hfind]
  · intro u hfind hck
    simp [login_user, hu, hp, hfind, hck]

/-- C4, witness: against `sampleStore`, the correct password for alice
logs in with the welcome message, and the unknown-user run and the
wrong-password run return identical 400 responses. -/
theorem login_uniform_responses_witness :
    login_user sampleStore ⟨some "alice", some "p1"⟩ =
      (sampleStore, ⟨200, Body.msg "Welcome alice! You are logged in."⟩) ∧
    login_user sampleStore ⟨some "nobody", some "p1"⟩ =
      (sampleStore, ⟨400, Body.err "Invalid username or password"⟩) ∧
    login_user sampleStore ⟨some "alice", some "wrong"⟩ =
      (sampleStore, ⟨400, Body.err "Invalid username or password"⟩) := by
  refine ⟨?_, ?_, ?_⟩
  · have h := (login_uniform_responses sampleStore ⟨some "alice", some "p1"⟩
      "alice" "p1" rfl rfl).1 sampleUser (by decide) (by decide)
    exact h.trans (by decide)
  · exact (login_uniform_responses sampleStore ⟨some "nobody", some "p1"⟩
      "nobody" "p1" rfl rfl).2.1 (by decide)
  · exact (login_uniform_responses sampleStore ⟨some "alice", some "wrong"⟩
      "alice" "wrong" rfl rfl).2.2 sampleUser (by decide) (by decide)

/-- C5, counterexample: a create-task body carrying title, description
and a user_id key with value 0 has all three fields present, and 0
resolves to no user, yet the handler answers 400 with the
user-id-required error — not the claimed 404 — because the Python
truthiness test `if not user_id` treats the integer 0 like a missing
field. -/
theorem add_task_zero_user_id_counterexample :
    zeroIdBody.title.isSome = true ∧ zeroIdBody.description.isSome = true ∧
    zeroIdBody.user_id = some 0 ∧
    findUserById sampleStore 0 = none ∧
    add_task sampleStore zeroIdBody =
      (sampleStore, ⟨400, Body.err "User ID is required"⟩) ∧
    (add_task sampleStore zeroIdBody).2.status ≠ 404 := by decide

/-- C5, amended: a create-task request missing title or description is
answered 400 with the title-description error; one whose title and
description are present but whose user_id is missing or falsy (the
integer 0) is answered 400 with the user-id-required error; one whose
user_id is present and nonzero but resolves to no user is answered 404
with the user-not-found error; in every failure case the store is
returned unchanged. -/
theorem add_task_failure_cases (s : Store) (data : TaskBody) :
    (data.title = none ∨ data.description = none →
      add_task s data =
        (s, ⟨400, Body.err "Title and description are required"⟩)) ∧
    (data.title.isSome = true → data.description.isSome = true →
      truthyUserId data.user_id = false →
      add_task s data = (s, ⟨400, Body.err "User ID is required"⟩)) ∧
    (∀ v : Int, data.title.isSome = true → data.description.isSome = true →
      data.user_id = some v → v ≠ 0 → findUserById s v = none →
      add_task s data = (s, ⟨404, Body.err "User not found"⟩)) := by
  refine ⟨?_, ?_, ?_⟩
  · intro h
    cases h with
    | inl ht => simp [add_task, ht]
    | inr hd => simp [add_task, hd]
  · intro ht hd hfalse
    obtain ⟨t, ht'⟩ := Option.isSome_iff_exists.mp ht
    obtain ⟨d, hd'⟩ := Option.isSome_iff_exists.mp hd
    simp [add_task, ht', hd', hfalse]
  · intro v ht hd hv hv0 hfind
    obtain ⟨t, ht'⟩ := Option.isSome_iff_exists.mp ht
    obtain ⟨d, hd'⟩ := Option.isSome_iff_exists.mp hd
    have htr : truthyUserId (some v) = true := by
      simp [truthyUserId, hv0]
    simp [add_task, ht', hd', hv, htr, hfind]

/-- C5, witness: with an empty user table, a create-task request naming
user 9 is answered 404 and creates nothing. -/
theorem add_task_failure_cases_witness :
    add_task emptyStore ⟨none, some "T", some "D", none, some 9⟩ =
      (emptyStore, ⟨404, Body.err "User not found"⟩) :=
  (add_task_failure_cases emptyStore
    ⟨none, some "T", some "D", none, some 9⟩).2.2 9 (by decide) (by decide)
    rfl (by decide) (by decide)

/-- C6: a create-task request carrying title, description and a user_id
that resolves to an existing user (in a store whose server-assigned user
ids are at least 1, as the serial id sequence guarantees) appends exactly
one task row and returns 200 with the serialization of that row: its
user_id is the resolved user's id — equal to the supplied user_id — its
title and description are the supplied values, and its done flag is the
supplied value when the done key is present and false when it is
absent. -/
theorem add_task_success (s : Store) (data : TaskBody) (title desc : String)
    (v : Int) (u : User) (ht : data.title = some title)
    (hd : data.description = some desc) (hv : data.user_id = some v)
    (hids : ∀ w ∈ s.users, 1 ≤ w.id) (hu : findUserById s v = some u) :
    add_task s data =
      ({ s with
          tasks := s.tasks ++
            [⟨s.nextTaskId, title, desc, data.done.getD false, u.id⟩],
          nextTaskId := s.nextTaskId + 1 },
        ⟨200, Body.task ⟨s.nextTaskId, title, desc, data.done.getD false, u.id⟩⟩) ∧
    (u.id : Int) = v ∧
    (∀ b, data.done = some b → data.done.getD false = b) ∧
    (data.done = none → data.done.getD false = false) := by
  have huid : (u.id : Int) = v := by
    have hp := List.find?_some hu
    simpa using hp
  have hv0 : v ≠ 0 := by
    have hmem := List.mem_of_find?_eq_some hu
    have h1 := hids u hmem
    intro h0
    rw [h0] at huid
    omega
  have htr : truthyUserId (some v) = true := by
    simp [truthyUserId, hv0]
  refine ⟨?_, huid, ?_, ?_⟩
  · simp [add_task, Task.to_dict, ht, hd, hv, htr, hu]
  · intro b hb; rw [hb]; rfl
  · intro hb; rw [hb]; rfl

/-- C6, witness: creating a task for alice returns 200 with her id on
the task, the supplied title and description, and done defaulted to
false. -/
theorem add_task_success_witness :
    add_task sampleStore ⟨none, some "T", some "D", none, some 1⟩ =
      (taskStore, ⟨200, Body.task ⟨1, "T", "D", false, 1⟩⟩) := by
  have h := add_task_success sampleStore ⟨none, some "T", some "D", none, some 1⟩
    "T" "D" 1 sampleUser rfl rfl rfl (by decide) (by decide)
  exact h.1.trans (by decide)

/-- C7: task update is a partial merge: when the task exists, the row
with that id afterwards holds the merge of the old row with the body —
each of title, description, done keeps its prior value when its key is
absent and takes the supplied value when present — and the handler
returns 200 with the serialization of the merged row.  In particular a
body supplying only done keeps the prior title and description. -/
theorem update_task_partial_merge (s : Store) (id : Nat) (data : TaskBody)
    (task : Task) (hfind : findTaskById s id = some task) :
    findTaskById (update_task s id data).1 id = some (mergeTask task data) ∧
    (update_task s id data).2 = ⟨200, Body.task (mergeTask task data).to_dict⟩ ∧
    (data.title = none → (mergeTask task data).title = task.title) ∧
    (∀ t, data.title = some t → (mergeTask task data).title = t) ∧
    (data.description = none →
      (mergeTask task data).description = task.description) ∧
    (∀ d, data.description = some d → (mergeTask task data).description = d) ∧
    (data.done = none → (mergeTask task data).done = task.done) ∧
    (∀ b, data.done = some b → (mergeTask task data).done = b) := by
  have hsome : (s.tasks.find? (fun t => t.id == id)).isSome := by
    unfold findTaskById at hfind
    rw [hfind]
    rfl
  have hid : task.id = id := by
    have hp := List.find?_some (show s.tasks.find? (fun t => t.id == id) = some task by
      unfold findTaskById at hfind; exact hfind)
    simpa using hp
  refine ⟨?_, ?_, ?_, ?_, ?_, ?_, ?_, ?_⟩
  · have h1 : (update_task s id data).1 =
        { s with tasks :=
            s.tasks.map (fun t => if t.id == id then mergeTask task data else t) } := by
      simp [update_task, hfind]
    rw [h1]
    exact find?_replace s.tasks id (mergeTask task data) hid hsome
  · simp [update_task, hfind]
  · intro h; simp [mergeTask, h]
  · intro t h; simp [mergeTask, h]
  · intro h; simp [mergeTask, h]
  · intro d h; simp [mergeTask, h]
  · intro h; simp [mergeTask, h]
  · intro b h; simp [mergeTask, h]

/-- C7, witness: updating task 1 with only a done flag set to true turns
done on and keeps title T and description D. -/
theorem update_task_partial_merge_witness :
    findTaskById (update_task taskStore 1 ⟨none, none, none, some true, none⟩).1 1 =
      some ⟨1, "T", "D", true, 1⟩ ∧
    (update_task taskStore 1 ⟨none, none, none, some true, none⟩).2 =
      ⟨200, Body.task ⟨1, "T", "D", true, 1⟩⟩ := by
  have h := update_task_partial_merge taskStore 1
    ⟨none, none, none, some true, none⟩ sampleTask (by decide)
  exact ⟨h.1.trans (by decide), h.2.1.trans (by decide)⟩

/-- C8: deleting an existing task answers 200 with the confirmation
message and removes the row, and a get on the same id against the
resulting store answers the 400 task-not-found error instead of a task
object. -/
theorem delete_then_get_not_found (s : Store) (id : Nat) (task : Task)
    (hfind : findTaskById s id = some task) :
    (delete_task s id).2 = ⟨200, Body.msg "Task deleted"⟩ ∧
    get_task (delete_task s id).1 id =
      ((delete_task s id).1, ⟨400, Body.err "Task not found"⟩) := by
  constructor
  · simp [delete_task, hfind]
  · have h1 : (delete_task s id).1 =
        { s with tasks := s.tasks.filter (fun t => !(t.id == id)) } := by
      simp [delete_task, hfind]
    rw [h1]
    have h2 : findTaskById
        { s with tasks := s.tasks.filter (fun t => !(t.id == id)) } id = none :=
      find?_filter_ne s.tasks id
    simp [get_task, h2]

/-- C8, witness: deleting task 1 succeeds and a subsequent get on id 1
reports not-found. -/
theorem delete_then_get_not_found_witness :
    (delete_task taskStore 1).2 = ⟨200, Body.msg "Task deleted"⟩ ∧
    get_task (delete_task taskStore 1).1 1 =
      ((delete_task taskStore 1).1, ⟨400, Body.err "Task not found"⟩) :=
  delete_then_get_not_found taskStore 1 sampleTask (by decide)

/-- C9: when the id resolves to no task, each of the get, update and
delete handlers answers status 400 with the task-not-found error body
and returns the store unchanged. -/
theorem task_not_found_handlers (s : Store) (id : Nat)
    (hfind : findTaskById s id = none) :
    get_task s id = (s, ⟨400, Body.err "Task not found"⟩) ∧
    (∀ data, update_task s id data = (s, ⟨400, Body.err "Task not found"⟩)) ∧
    delete_task s id = (s, ⟨400, Body.err "Task not found"⟩) := by
  refine ⟨?_, ?_, ?_⟩
  · simp [get_task, hfind]
  · intro data; simp [update_task, hfind]
  · simp [delete_task, hfind]

/-- C9, witness: id 99 resolves to no task of `taskStore`, and all three
handlers answer the same 400 error and leave the store as it was. -/
theorem task_not_found_handlers_witness :
    get_task taskStore 99 = (taskStore, ⟨400, Body.err "Task not found"⟩) ∧
    update_task taskStore 99 ⟨none, some "X", none, some true, none⟩ =
      (taskStore, ⟨400, Body.err "Task not found"⟩) ∧
    delete_task taskStore 99 = (taskStore, ⟨400, Body.err "Task not found"⟩) := by
  have h := task_not_found_handlers taskStore 99 (by decide)
  exact ⟨h.1, h.2.1 _, h.2.2⟩

/-- C10: the update handler never changes a task's id or user_id: the
merged row keeps both, and supplying id or user_id keys in the body
leaves the handler's result — new store and response — literally
unchanged, so those keys are ignored. -/
theorem update_task_ignores_id_and_user_id (s : Store) (id : Nat)
    (data : TaskBody) (task : Task) (hfind : findTaskById s id = some task) :
    findTaskById (update_task s id data).1 id = some (mergeTask task data) ∧
    (mergeTask task data).id = task.id ∧
    (mergeTask task data).user_id = task.user_id ∧
    (∀ i ui : Option Int,
      update_task s id { data with id := i, user_id := ui } =
        update_task s id data) := by
  have hsome : (s.tasks.find? (fun t => t.id == id)).isSome := by
    unfold findTaskById at hfind
    rw [hfind]
    rfl
  have hid : task.id = id := by
    have hp := List.find?_some (show s.tasks.find? (fun t => t.id == id) = some task by
      unfold findTaskById at hfind; exact hfind)
    simpa using hp
  refine ⟨?_, rfl, rfl, ?_⟩
  · have h1 : (update_task s id data).1 =
        { s with tasks :=
            s.tasks.map (fun t => if t.id == id then mergeTask task data else t) } := by
      simp [update_task, hfind]
    rw [h1]
    exact find?_replace s.tasks id (mergeTask task data) hid hsome
  · intro i ui
    rfl

/-- C10, witness: an update body that smuggles in id 77 and user_id 88
changes neither: afterwards task 1 still has id 1 and user_id 1, and the
handler result equals the result without those keys. -/
theorem update_task_ignores_id_and_user_id_witness :
    findTaskById
      (update_task taskStore 1 ⟨some 77, none, none, some true, some 88⟩).1 1 =
      some ⟨1, "T", "D", true, 1⟩ ∧
    update_task taskStore 1 ⟨some 77, none, none, some true, some 88⟩ =
      update_task taskStore 1 ⟨none, none, none, some true, none⟩ := by
  have h := update_task_ignores_id_and_user_id taskStore 1
    ⟨none, none, none, some true, none⟩ sampleTask (by decide)
  exact ⟨(h.2.2.2 (some 77) (some 88)).symm ▸ (h.1.trans (by decide)),
    h.2.2.2 (some 77) (some 88)⟩

end App
